import Mathlib

/-!
Verification of the langgraph MCP agent: a shallow embedding of the agent
graph (src/src/mcp_agent/agent.py, schema.py) and of the interactive chat
session (src/interactive_chat.py), with theorems about the specified
behaviour.
-/

namespace MCPAgent

/-- Roles of chat messages, mirroring the langchain message classes the
repository uses: HumanMessage, AIMessage, and tool result messages. -/
inductive Role where
| user
| assistant
| tool
deriving DecidableEq

/-- A chat message as the repository manipulates it: a role, a content
string, and the list of tool call requests attached to the message
(empty when it carries none, matching the hasattr guards in agent.py). -/
structure Message where
  role : Role
  content : String
  tool_calls : List String
deriving DecidableEq

/-- HumanMessage constructor from langchain_core.messages, as used at
agent.py line 85 and interactive_chat.py line 78. -/
def HumanMessage (s : String) : Message := ⟨Role.user, s, []⟩

/-- AIMessage constructor: an assistant message without tool calls, as
built for error replies at interactive_chat.py line 112. -/
def AIMessage (s : String) : Message := ⟨Role.assistant, s, []⟩

/-- A tool description as handed to bind_tools; its payload is opaque to
the agent code, which only compares and stores tool lists. -/
structure Tool where
  name : String
deriving DecidableEq

/-- Modelled from the spec: the messages reducer of AgentState (schema.py
line 7) is langgraph.graph.message.add_messages, library code not present
under src; the spec describes it as append - new messages are
concatenated to the end, preserving order, never reordered or
deduplicated by the engine. -/
def add_messages (a b : List Message) : List Message := a ++ b

/-- Modelled from the spec: StateReducers.replace_tools, imported by
schema.py line 4 from .state_reducers, a module not present under src;
the spec describes it as replace-or-keep - a null update keeps the
previous value, a non-null update replaces it wholesale. -/
def replace_tools (a b : Option (List Tool)) : Option (List Tool) :=
  match b with
  | none => a
  | some ts => some ts

/-- AgentState from schema.py: a messages channel reduced by add_messages
and a tools channel reduced by replace_tools; the tools channel is absent
(none) until the get_tools node writes it, matching state.get("tools"). -/
structure AgentState where
  messages : List Message
  tools : Option (List Tool)
deriving DecidableEq

/-- A chat model handle: either the original unbound model or the result
of a bind_tools call on a previous handle (agent.py line 29). -/
inductive ModelHandle where
| base : String → ModelHandle
| bound : ModelHandle → List Tool → ModelHandle
deriving DecidableEq

/-- The mutable attributes of Agent that the graph nodes read and write:
self.model, self._bound_tools and self._tool_node (agent.py lines 13-18).
The tool node is modelled by the tool list it was constructed from. -/
structure AgentMem where
  model : ModelHandle
  bound_tools : Option (List Tool)
  tool_node : Option (List Tool)
deriving DecidableEq

/-- Agent._call_model (agent.py lines 24-34). Reads the tools channel;
when it holds a non-empty list that differs from the currently bound
tools, binds the model to it, records it as bound and rebuilds the tool
node; then invokes the possibly rebound model on the messages channel.
Returns the updated attributes, the messages update, and the number of
bind calls performed. -/
def call_model (mem : AgentMem) (st : AgentState)
    (respond : ModelHandle → List Message → Message) :
    AgentMem × List Message × Nat :=
  let step : AgentMem × Nat :=
    match st.tools with
    | none => (mem, 0)
    | some ts =>
      if ts = [] then (mem, 0)
      else if mem.bound_tools ≠ some ts then
        (⟨ModelHandle.bound mem.model ts, some ts, some ts⟩, 1)
      else (mem, 0)
  (step.1, [respond step.1.model st.messages], step.2)

/-- Agent._execute_tools (agent.py lines 36-45): returns no messages when
no tool node exists, when the messages channel is empty, or when the last
message carries no tool calls; otherwise invokes the tool node once.
Returns the messages update and the number of tool node invocations. -/
def execute_tools (mem : AgentMem) (st : AgentState)
    (dispatch : List Tool → AgentState → List Message) :
    List Message × Nat :=
  match mem.tool_node with
  | none => ([], 0)
  | some tn =>
    match st.messages.getLast? with
    | none => ([], 0)
    | some last =>
      if last.tool_calls ≠ [] then (dispatch tn st, 1) else ([], 0)

/-- Outcome of the conditional branch after call_model. -/
inductive Next where
| execute_tools
| done
deriving DecidableEq

/-- Agent._should_continue (agent.py lines 47-57): END when the messages
channel is empty, execute_tools when the last message carries tool calls,
END otherwise. -/
def should_continue (st : AgentState) : Next :=
  match st.messages.getLast? with
  | none => Next.done
  | some last =>
    if last.tool_calls ≠ [] then Next.execute_tools else Next.done

/-- Graph node names of build_agent, with FINISH standing for langgraph
END. -/
inductive Node where
| get_tools
| call_model
| execute_tools
| FINISH
deriving DecidableEq

/-- A compiled StateGraph as build_agent assembles it: named nodes, an
entry point, plain edges, and conditional edge groups each made of a
source node, a branch function and a mapping from branch outcome to
target. -/
structure GraphDef where
  nodes : List Node
  entry : Node
  edges : List (Node × Node)
  conditionals : List (Node × (AgentState → Next) × List (Next × Node))

/-- Agent.build_agent (agent.py lines 59-80): three nodes, entry at
get_tools, plain edges get_tools to call_model (line 67), execute_tools
to call_model (line 76) and call_model to END (line 77), plus the single
conditional edge group at call_model routed by should_continue
(lines 68-75). -/
def build_agent : GraphDef :=
  { nodes := [Node.get_tools, Node.call_model, Node.execute_tools]
    entry := Node.get_tools
    edges := [(Node.get_tools, Node.call_model),
              (Node.execute_tools, Node.call_model),
              (Node.call_model, Node.FINISH)]
    conditionals := [(Node.call_model, should_continue,
      [(Next.execute_tools, Node.execute_tools),
       (Next.done, Node.FINISH)])] }

/-- Failure of tool discovery: the RegistryUnavailable error raised by
the tool registry client when no configured server responds
(mcp_client.py lines 7-8). -/
inductive RegistryError where
| unavailable
deriving DecidableEq

/-- Agent._get_tools (agent.py lines 20-22): awaits the registry client
and writes the result to the tools channel; the await sits inside no
handler, so a raised error propagates to the caller of the node. -/
def get_tools_node (fetch : Except RegistryError (List Tool)) :
    Except RegistryError (Option (List Tool)) :=
  match fetch with
  | Except.error e => Except.error e
  | Except.ok ts => Except.ok (some ts)

/-- The supersteps of the compiled graph after get_tools: run call_model,
append its update through the messages reducer, branch with
should_continue; on execute_tools run that node, append its update and
loop back to call_model; fuel bounds the number of model turns. -/
def graph_loop (respond : ModelHandle → List Message → Message)
    (dispatch : List Tool → AgentState → List Message) :
    Nat → AgentMem → AgentState → AgentMem × AgentState
  | 0, mem, st => (mem, st)
  | Nat.succ fuel, mem, st =>
    let r := call_model mem st respond
    let st1 : AgentState := { st with messages := add_messages st.messages r.2.1 }
    match should_continue st1 with
    | Next.done => (r.1, st1)
    | Next.execute_tools =>
      let e := execute_tools r.1 st1 dispatch
      let st2 : AgentState := { st1 with messages := add_messages st1.messages e.1 }
      graph_loop respond dispatch fuel r.1 st2

/-- A full graph invocation as agent.ainvoke performs it: the seed
messages are reduced into the empty messages channel, get_tools runs
first (the entry point set at agent.py line 66) and a failure there
aborts the invocation; otherwise its tools update is applied through the
tools reducer and the call_model loop runs. -/
def run_graph (fetch : Except RegistryError (List Tool))
    (respond : ModelHandle → List Message → Message)
    (dispatch : List Tool → AgentState → List Message)
    (mem : AgentMem) (seed : List Message) (fuel : Nat) :
    Except RegistryError (AgentMem × AgentState) :=
  match get_tools_node fetch with
  | Except.error e => Except.error e
  | Except.ok tsOpt =>
    let st : AgentState := { messages := add_messages [] seed,
                             tools := replace_tools none tsOpt }
    Except.ok (graph_loop respond dispatch fuel mem st)

/-- The seed Agent.run passes to ainvoke (agent.py line 85): a single
HumanMessage built from the question string alone. -/
def agent_run_seed (question : String) : List Message := [HumanMessage question]

/-- The session state of InteractiveChat: the retained chat history and
the max_history bound (interactive_chat.py lines 30-32). -/
structure ChatState where
  chat_history : List Message
  max_history : Nat
deriving DecidableEq

/-- InteractiveChat._trim_history (interactive_chat.py lines 117-121):
when the history length exceeds max_history, keep the Python slice
chat_history[-max_history:], which is the last max_history entries - and
the whole list when max_history is 0, since [-0:] is [0:]. -/
def trim_history (h : List Message) (m : Nat) : List Message :=
  if h.length > m then (if m = 0 then h else h.drop (h.length - m)) else h

/-- The scan send_message performs over the graph output
(interactive_chat.py lines 92-98): the last message whose content
attribute is truthy, i.e. a non-empty string. -/
def extract_ai_response (msgs : List Message) : Option Message :=
  msgs.reverse.find? (fun msg => !msg.content.isEmpty)

/-- InteractiveChat.send_message (interactive_chat.py lines 64-115), with
the graph invocation abstracted as runAgent, which receives exactly the
argument the code passes it: the new message string. Appends the user
message to the history, invokes the agent; on success appends the
extracted reply and trims; with no extractable reply returns an apology;
on error appends a synthetic assistant message carrying the error text
and returns that text. -/
def send_message (st : ChatState) (message : String)
    (runAgent : String → Except String (List Message)) :
    ChatState × String :=
  let hist := st.chat_history ++ [HumanMessage message]
  match runAgent message with
  | Except.error e =>
    let err := "Error occurred: " ++ e
    (⟨hist ++ [AIMessage err], st.max_history⟩, err)
  | Except.ok msgs =>
    match extract_ai_response msgs with
    | some ai =>
      (⟨trim_history (hist ++ [ai]) st.max_history, st.max_history⟩, ai.content)
    | none =>
      (⟨hist, st.max_history⟩,
       "I apologize, but I could not generate a proper response.")

/-- The message sequence the execution graph receives when send_message
runs a turn: send_message calls self.agent.run(message)
(interactive_chat.py line 86) with only the new message string, and
Agent.run seeds ainvoke with that single message (agent.py line 85); the
history copy prepared at interactive_chat.py line 83 is never passed. -/
def send_graph_seed (st : ChatState) (message : String) : List Message :=
  agent_run_seed message

/-- A concrete model response function for concrete evaluations. -/
def respond0 : ModelHandle → List Message → Message := fun _ _ => AIMessage "reply"

/-- A concrete tool dispatcher for concrete evaluations. -/
def dispatch0 : List Tool → AgentState → List Message := fun _ _ => []

/-- A fresh agent attribute record: unbound base model, nothing bound. -/
def mem0 : AgentMem := ⟨ModelHandle.base "model", none, none⟩

/-- A concrete tool for concrete evaluations. -/
def tool0 : Tool := ⟨"search"⟩

/-- A run of the agent returning one non-empty assistant message. -/
def runOk : String → Except String (List Message) :=
  fun _ => Except.ok [AIMessage "ok"]

/-- A run of the agent raising an error. -/
def runErr : String → Except String (List Message) :=
  fun _ => Except.error "boom"

theorem trim_history_length_le (h : List Message) (m : Nat) (hm : 1 ≤ m) :
    (trim_history h m).length ≤ m := by
  have hm0 : m ≠ 0 := Nat.one_le_iff_ne_zero.mp hm
  unfold trim_history
  by_cases hgt : h.length > m
  · simp only [if_pos hgt, if_neg hm0, List.length_drop]
    omega
  · simp only [if_neg hgt]
    omega

theorem trim_history_suffix (h : List Message) (m : Nat) :
    List.IsSuffix (trim_history h m) h := by
  unfold trim_history
  by_cases hgt : h.length > m
  · by_cases hm0 : m = 0
    · simp only [if_pos hgt, if_pos hm0]
      exact List.suffix_refl h
    · simp only [if_pos hgt, if_neg hm0]
      exact List.drop_suffix _ _
  · simp only [if_neg hgt]
    exact List.suffix_refl h

/-- C1: the seed with which a send invokes the execution graph is the
single new user message, independent of the retained history; at a
session holding two prior turns it is not the retained history plus the
new message, so the model does not see prior turns. -/
theorem C1_seed_is_only_new_message :
    (∀ (st : ChatState) (q : String),
      send_graph_seed st q = [HumanMessage q] ∧
      (send_graph_seed st q).length = 1) ∧
    send_graph_seed ⟨[HumanMessage "hi", AIMessage "hello"], 50⟩ "next" ≠
      [HumanMessage "hi", AIMessage "hello"] ++ [HumanMessage "next"] := by
  refine ⟨fun st q => ⟨rfl, rfl⟩, ?_⟩
  decide

/-- C2 as stated is false: when tool fetching fails, the graph invocation
does not proceed to call_model and produce a reply; it aborts with the
error. -/
theorem C2_counterexample_registry_error_aborts :
    run_graph (Except.error RegistryError.unavailable) respond0 dispatch0
        mem0 [HumanMessage "hi"] 5 =
      Except.error RegistryError.unavailable := rfl

/-- C2 amended: the get_tools node installs no handler, so a tool
discovery failure propagates unchanged out of the node and out of the
whole graph invocation; the turn does not complete inside the graph. -/
theorem C2_registry_error_propagates :
    ∀ (e : RegistryError) (respond : ModelHandle → List Message → Message)
      (dispatch : List Tool → AgentState → List Message)
      (mem : AgentMem) (seed : List Message) (fuel : Nat),
      get_tools_node (Except.error e) = Except.error e ∧
      run_graph (Except.error e) respond dispatch mem seed fuel =
        Except.error e := by
  intro e respond dispatch mem seed fuel
  exact ⟨rfl, rfl⟩

/-- C3 as stated is false: on the first pass, with no tools bound yet and
an empty fetched tool set, call_model performs zero bind calls and the
model handle used downstream is still the unbound original. -/
theorem C3_counterexample_empty_toolset_no_bind :
    (call_model mem0 ⟨[HumanMessage "hi"], some []⟩ respond0).2.2 = 0 ∧
    (call_model mem0 ⟨[HumanMessage "hi"], some []⟩ respond0).1.model =
      ModelHandle.base "model" := by
  exact ⟨rfl, rfl⟩

/-- C3 amended: on the first pass the binding step binds exactly when the
fetched tool set is non-empty; with an empty set it performs no bind and
the model stays the unbound original, with a non-empty set it performs
one bind and the model becomes bound to those tools. -/
theorem C3_first_pass_bind_iff_nonempty
    (m : ModelHandle) (msgs : List Message) (ts : List Tool)
    (respond : ModelHandle → List Message → Message) :
    (call_model ⟨m, none, none⟩ ⟨msgs, some ts⟩ respond).2.2 =
      (if ts = [] then 0 else 1) ∧
    (call_model ⟨m, none, none⟩ ⟨msgs, some ts⟩ respond).1.model =
      (if ts = [] then m else ModelHandle.bound m ts) := by
  by_cases h : ts = []
  · subst h
    exact ⟨rfl, rfl⟩
  · simp [call_model, h]

/-- C4 as stated is false at max_history = 0: the Python slice
chat_history[-0:] keeps the entire list, so after the trimming step of a
successful send the retained history still holds 2 entries, exceeding the
bound 0. -/
theorem C4_counterexample_zero_bound :
    ((send_message ⟨[], 0⟩ "hi" runOk).1.chat_history).length = 2 ∧
    ¬ ((send_message ⟨[], 0⟩ "hi" runOk).1.chat_history).length ≤ 0 := by
  constructor <;> decide

/-- C4 amended: provided max_history is at least 1, after the trimming
step of a successful send the retained history length never exceeds
max_history, and the trimmed history is a suffix of the appended history,
so only the oldest entries are dropped and the remainder keeps its
order. -/
theorem C4_trim_bound_and_fifo
    (st : ChatState) (q : String)
    (runAgent : String → Except String (List Message))
    (msgs : List Message) (ai : Message)
    (hm : 1 ≤ st.max_history)
    (hrun : runAgent q = Except.ok msgs)
    (hai : extract_ai_response msgs = some ai) :
    ((send_message st q runAgent).1.chat_history).length ≤ st.max_history ∧
    List.IsSuffix ((send_message st q runAgent).1.chat_history)
      (st.chat_history ++ [HumanMessage q] ++ [ai]) := by
  have hh : (send_message st q runAgent).1.chat_history =
      trim_history (st.chat_history ++ [HumanMessage q] ++ [ai])
        st.max_history := by
    simp only [send_message, hrun, hai]
  rw [hh]
  exact ⟨trim_history_length_le _ _ hm, trim_history_suffix _ _⟩

theorem C4_trim_bound_and_fifo_witness :
    ((send_message ⟨[], 1⟩ "hi" runOk).1.chat_history).length ≤ 1 ∧
    List.IsSuffix ((send_message ⟨[], 1⟩ "hi" runOk).1.chat_history)
      (([] : List Message) ++ [HumanMessage "hi"] ++ [AIMessage "ok"]) :=
  C4_trim_bound_and_fifo ⟨[], 1⟩ "hi" runOk [AIMessage "ok"] (AIMessage "ok")
    (by decide) rfl (by decide)

/-- C5: the messages reducer is exactly list concatenation: identity with
the empty update, additive length, and append at the end preserving
order. -/
theorem C5_messages_reducer_is_concat :
    ∀ (a b : List Message),
      add_messages a [] = a ∧
      (add_messages a b).length = a.length + b.length ∧
      add_messages a b = a ++ b := by
  intro a b
  refine ⟨?_, ?_, rfl⟩ <;> simp [add_messages]

/-- C6: the tools reducer is wholesale replace-or-keep: a null update
keeps the existing value and a non-null update fully replaces it. -/
theorem C6_tools_reducer_replace_or_keep :
    ∀ (a : Option (List Tool)) (b : List Tool),
      replace_tools a none = a ∧ replace_tools a (some b) = some b := by
  intro a b
  exact ⟨rfl, rfl⟩

/-- C7: after call_model appends the assistant response, the branch goes
to execute_tools precisely when that just-appended message carries tool
calls and to END otherwise; and call_model is the sole conditional edge
source of the compiled graph. -/
theorem C7_branch_iff_tool_calls :
    (∀ (ms : List Message) (msg : Message) (t : Option (List Tool)),
      should_continue ⟨ms ++ [msg], t⟩ =
        (if msg.tool_calls ≠ [] then Next.execute_tools else Next.done)) ∧
    build_agent.conditionals.map Prod.fst = [Node.call_model] := by
  constructor
  · intro ms msg t
    simp [should_continue, List.getLast?_concat]
  · rfl

/-- C8: execute_tools contributes no messages and performs zero tool node
invocations when no tool node is bound or the most recent message carries
no tool calls, and the compiled graph still routes execute_tools back to
call_model. -/
theorem C8_execute_tools_noop
    (mem : AgentMem) (st : AgentState)
    (dispatch : List Tool → AgentState → List Message)
    (h : mem.tool_node = none ∨
      ∀ msg, st.messages.getLast? = some msg → msg.tool_calls = []) :
    execute_tools mem st dispatch = ([], 0) ∧
    (Node.execute_tools, Node.call_model) ∈ build_agent.edges := by
  refine ⟨?_, by simp [build_agent]⟩
  rcases h with h | h
  · simp [execute_tools, h]
  · unfold execute_tools
    cases htn : mem.tool_node with
    | none => rfl
    | some tn =>
      cases hl : st.messages.getLast? with
      | none => rfl
      | some last => simp [h last hl]

theorem C8_execute_tools_noop_witness :
    execute_tools mem0 ⟨[AIMessage "hello"], none⟩ dispatch0 = ([], 0) ∧
    (Node.execute_tools, Node.call_model) ∈ build_agent.edges :=
  C8_execute_tools_noop mem0 ⟨[AIMessage "hello"], none⟩ dispatch0 (Or.inl rfl)

/-- C9: when call_model receives a tools value equal to the currently
bound one, it performs zero bind calls, leaves the model handle, the
bound tools reference and the tool node all unchanged, and responds with
the existing model handle. -/
theorem C9_same_tools_no_rebind
    (mem : AgentMem) (st : AgentState)
    (respond : ModelHandle → List Message → Message)
    (h : st.tools = mem.bound_tools) :
    (call_model mem st respond).1 = mem ∧
    (call_model mem st respond).2.2 = 0 ∧
    (call_model mem st respond).2.1 = [respond mem.model st.messages] := by
  unfold call_model
  cases hts : st.tools with
  | none => exact ⟨rfl, rfl, rfl⟩
  | some ts =>
    by_cases hempty : ts = []
    · subst hempty
      simp
    · have hbound : mem.bound_tools = some ts := by rw [← h, hts]
      simp [hempty, hbound]

theorem C9_same_tools_no_rebind_witness :
    (call_model ⟨ModelHandle.base "model", some [tool0], some [tool0]⟩
        ⟨[HumanMessage "hi"], some [tool0]⟩ respond0).1 =
      ⟨ModelHandle.base "model", some [tool0], some [tool0]⟩ ∧
    (call_model ⟨ModelHandle.base "model", some [tool0], some [tool0]⟩
        ⟨[HumanMessage "hi"], some [tool0]⟩ respond0).2.2 = 0 ∧
    (call_model ⟨ModelHandle.base "model", some [tool0], some [tool0]⟩
        ⟨[HumanMessage "hi"], some [tool0]⟩ respond0).2.1 =
      [respond0 (ModelHandle.base "model") [HumanMessage "hi"]] :=
  C9_same_tools_no_rebind ⟨ModelHandle.base "model", some [tool0], some [tool0]⟩
    ⟨[HumanMessage "hi"], some [tool0]⟩ respond0 rfl

/-- C10: when the graph invocation inside send raises any error, send
converts it into a synthetic assistant message appended to the retained
history and returns its text as the reply instead of propagating the
error. -/
theorem C10_send_error_in_band
    (st : ChatState) (q e : String)
    (runAgent : String → Except String (List Message))
    (hrun : runAgent q = Except.error e) :
    (send_message st q runAgent).2 = "Error occurred: " ++ e ∧
    (send_message st q runAgent).1.chat_history =
      st.chat_history ++
        [HumanMessage q, AIMessage ("Error occurred: " ++ e)] := by
  simp [send_message, hrun]

theorem C10_send_error_in_band_witness :
    (send_message ⟨[], 50⟩ "hi" runErr).2 = "Error occurred: " ++ "boom" ∧
    (send_message ⟨[], 50⟩ "hi" runErr).1.chat_history =
      ([] : List Message) ++
        [HumanMessage "hi", AIMessage ("Error occurred: " ++ "boom")] :=
  C10_send_error_in_band ⟨[], 50⟩ "hi" "boom" runErr rfl

end MCPAgent
